import Mathlib

/-
Verification of the MCP_Debug finance evidence pipeline.

The repository gathers evidence for a finance question from two unreliable
sources (an ETtoday news search-and-scrape flow and a MOPS filing-table
scrape), assembles a bounded corpus, and asks a language model to answer.
This file shallowly embeds the orchestration logic of
  tools/news_summary.py  (crawl_etnews_articles)
  tools/mops_report.py   (fetch_mops_report)
  mc.py                  (parse_question, _crawl_ettoday, _gpt_answer,
                          etnews_finance_summary)
  mo.py                  (parse_question, analyze_financial_data,
                          etnews_finance_summary)
  server.py              (the shared article-block rendering of /analyze)
and proves properties of the embedded definitions.

Collaborators (HTTP fetches, the Selenium driver, pandas table parsing and
the language-model completion calls) are modelled as explicit environment
parameters: each call site receives the outcome the collaborator would
produce there.  Python exceptions that the source code does not catch are
modelled with Except: a value of the form Except.error e is an uncaught
exception carrying the exception text e.
-/

set_option maxHeartbeats 1000000

/-! ## Small Python-semantics helpers -/

/-- Python string slicing s[:n] for a non-negative literal n:
the first n characters (code points) of s. -/
def strTake (n : Nat) (s : String) : String := String.mk (s.data.take n)

/-- Python list slicing xs[:k] for an arbitrary integer k:
for 0 ≤ k the first k entries, for k < 0 all but the last |k| entries. -/
def pySliceTo {α : Type} (k : Int) (xs : List α) : List α :=
  if 0 ≤ k then xs.take k.toNat else xs.take (xs.length - k.natAbs)

/-- Python s.strip(): remove leading and trailing whitespace. -/
def pyStrip (s : String) : String :=
  String.mk (((s.data.dropWhile Char.isWhitespace).reverse.dropWhile
    Char.isWhitespace).reverse)

/-! ## Article records (tools/news_summary.py, mc.py _crawl_ettoday)

An Article is the five-field record appended by the crawler.  The two
crawler copies (tools/news_summary.py lines 15-59 and mc.py lines 77-123)
build identical records; both are embedded by crawl_etnews_articles below.
-/

structure Article where
  title : String
  link : String
  date : String
  content : String
  keyword : String
deriving DecidableEq

/-- The h2 a element of a search-result box: its text and href. -/
structure TitleTag where
  text : String
  href : String
deriving DecidableEq

/-- One .box_2 element of a search-result page: the optional h2 a tag and
the optional p.detail span.date text. -/
structure Candidate where
  title_tag : Option TitleTag
  date_tag : Option String
deriving DecidableEq

/-- Outcome of the full-article fetch for one candidate link:
the request raised (fail e, covering timeouts and raise_for_status),
or the page was fetched but neither the main-content nor the story
selector matched (noMain), or the main body text was extracted (main t). -/
inductive ArticleOutcome where
  | fail (e : String)
  | noMain
  | main (t : String)

/-- The news collaborators: search page judges the search-results request
for a page number (none = the request raised and the page is skipped),
article judges the full-article fetch for an href. -/
structure NewsEnv where
  search : Int → Option (List Candidate)
  article : String → ArticleOutcome

/-- The regex \d{4}-\d{2}-\d{2} tried at the head of a character list. -/
def dateAt : List Char → Option String
  | d1 :: d2 :: d3 :: d4 :: h1 :: d5 :: d6 :: h2 :: d7 :: d8 :: _ =>
    if d1.isDigit && d2.isDigit && d3.isDigit && d4.isDigit && h1 == '-' &&
       d5.isDigit && d6.isDigit && h2 == '-' && d7.isDigit && d8.isDigit
    then some (String.mk [d1, d2, d3, d4, h1, d5, d6, h2, d7, d8])
    else none
  | _ => none

/-- re.search for \d{4}-\d{2}-\d{2}: leftmost match in the list. -/
def findDateAux : List Char → Option String
  | [] => none
  | c :: rest =>
    match dateAt (c :: rest) with
    | some s => some s
    | none => findDateAux rest

/-- re.search(r"\d{4}-\d{2}-\d{2}", s): the leftmost date-shaped match. -/
def findDate (s : String) : Option String := findDateAux s.data

/-- content = f"(抓取失敗: {e})" : the failure placeholder embedding the
exception text, used when the full-article fetch raises. -/
def failContent (e : String) : String := "(抓取失敗: " ++ e ++ ")"

/-- content = "(無法取得內文)" : the placeholder when no body selector
matches on a successfully fetched article page. -/
def noMainContent : String := "(無法取得內文)"

/-- Processing of one .box_2 candidate: a candidate missing the title tag
or the date tag is dropped (none); otherwise one full-article fetch is
issued and the five-field Article is built, with content taken from the
fetch outcome. -/
def candidateArticle (env : NewsEnv) (keyword : String) (c : Candidate) :
    Option Article :=
  match c.title_tag, c.date_tag with
  | some tt, some dt =>
    let content :=
      match env.article tt.href with
      | .fail e => failContent e
      | .noMain => noMainContent
      | .main t => t
    some ⟨pyStrip tt.text, tt.href, (findDate dt).getD (""), content, keyword⟩
  | _, _ => none

/-- Result of one crawl: the article list plus how many search-page and
full-article requests were issued. -/
structure CrawlResult where
  articles : List Article
  searchFetches : Nat
  articleFetches : Nat
deriving DecidableEq

/-- The per-page loop of the crawler over a list of page numbers.
A failed search request is counted and the page skipped; a successful
page contributes its surviving candidates' articles in order, with one
article fetch per surviving candidate. -/
def crawlPages (env : NewsEnv) (keyword : String) : List Int → CrawlResult
  | [] => ⟨[], 0, 0⟩
  | p :: ps =>
    let rest := crawlPages env keyword ps
    match env.search p with
    | none => ⟨rest.articles, rest.searchFetches + 1, rest.articleFetches⟩
    | some boxes =>
      let arts := boxes.filterMap (candidateArticle env keyword)
      ⟨arts ++ rest.articles, rest.searchFetches + 1,
        rest.articleFetches + arts.length⟩

/-- range(1, pages + 1) over Python ints: empty when pages ≤ 0. -/
def pageRange (pages : Int) : List Int :=
  if pages ≤ 0 then [] else (List.range pages.toNat).map (fun i => (i : Int) + 1)

/-- crawl_etnews_articles(keyword, pages) of tools/news_summary.py
(identically mc.py _crawl_ettoday): iterate the search pages 1..pages,
skip pages whose search request raised, drop candidates missing a title
or date tag, fetch each surviving candidate's article page, and append
the five-field records in page order then in-page order. -/
def crawl_etnews_articles (env : NewsEnv) (keyword : String) (pages : Int) :
    CrawlResult :=
  crawlPages env keyword (pageRange pages)

/-! ## Article-block rendering (mc.py _gpt_answer, mo.py
etnews_finance_summary lines 133-137, server.py analyze lines 71-74)

All three front ends render the kept articles with the same f-string:
a numbered block holding title, link and the body truncated to 3000
characters.  mo.py and server.py slice with articles[:limit] before
enumerating; mc.py slices at the call site (line 172) with the same
expression.
-/

/-- One rendered article block:
f"【第 {i+1} 篇】\n標題：{title}\n連結：{link}\n內文：\n{content[:3000]}\n". -/
def articleDoc (i : Nat) (a : Article) : String :=
  "【第 " ++ toString (i + 1) ++ " 篇】\n標題：" ++ a.title ++
  "\n連結：" ++ a.link ++ "\n內文：\n" ++ strTake 3000 a.content ++ "\n"

/-- The docs list: enumerate(articles[:limit]) rendered as blocks. -/
def mkDocs (articles : List Article) (limit : Int) : List String :=
  (pySliceTo limit articles).enum.map (fun p => articleDoc p.1 p.2)

/-! ## Lemmas about the crawler -/

theorem candidateArticle_eq_some {env : NewsEnv} {keyword : String}
    {c : Candidate} {a : Article} (h : candidateArticle env keyword c = some a) :
    a.keyword = keyword := by
  unfold candidateArticle at h
  cases ht : c.title_tag with
  | none => rw [ht] at h; exact absurd h (by simp)
  | some tt =>
    cases hd : c.date_tag with
    | none => rw [ht, hd] at h; exact absurd h (by simp)
    | some dt =>
      rw [ht, hd] at h
      simp only [Option.some.injEq] at h
      subst h
      rfl

theorem crawlPages_keyword (env : NewsEnv) (keyword : String) :
    ∀ ps : List Int, ∀ a ∈ (crawlPages env keyword ps).articles,
      a.keyword = keyword := by
  intro ps
  induction ps with
  | nil => intro a ha; exact absurd ha (by simp [crawlPages])
  | cons p ps ih =>
    intro a ha
    unfold crawlPages at ha
    cases hs : env.search p with
    | none =>
      rw [hs] at ha
      exact ih a ha
    | some boxes =>
      rw [hs] at ha
      simp only [List.mem_append] at ha
      cases ha with
      | inl h =>
        obtain ⟨c, _, hc⟩ := List.mem_filterMap.mp h
        exact candidateArticle_eq_some hc
      | inr h => exact ih a h

/-- C10: every Article returned by crawl_etnews_articles has its keyword
field equal to the keyword argument of the call. -/
theorem crawl_keyword_field (env : NewsEnv) (keyword : String) (pages : Int) :
    ∀ a ∈ (crawl_etnews_articles env keyword pages).articles,
      a.keyword = keyword :=
  crawlPages_keyword env keyword (pageRange pages)

def newsEnvC10 : NewsEnv :=
  ⟨fun p => if p = 1 then some [⟨some ⟨"T", "L"⟩, some ("2024-01-02")⟩] else none,
   fun _ => .main ("body")⟩

/-- C10 witness: a concrete crawl whose single article carries the
requested keyword. -/
theorem crawl_keyword_field_witness :
    (⟨"T", "L", "2024-01-02", "body", "kw"⟩ : Article)
      ∈ (crawl_etnews_articles newsEnvC10 ("kw") 1).articles ∧
    (⟨"T", "L", "2024-01-02", "body", "kw"⟩ : Article).keyword = "kw" :=
  ⟨by decide,
   crawl_keyword_field newsEnvC10 ("kw") 1 ⟨"T", "L", "2024-01-02", "body", "kw"⟩
     (by decide)⟩

/-- C9: for pages ≤ 0 the crawler returns the empty list and issues no
search request and no article request (range(1, pages + 1) is empty). -/
theorem crawl_nonpos_pages (env : NewsEnv) (keyword : String) (pages : Int)
    (h : pages ≤ 0) :
    crawl_etnews_articles env keyword pages = ⟨[], 0, 0⟩ := by
  unfold crawl_etnews_articles pageRange
  rw [if_pos h]
  rfl

def newsEnvC9 : NewsEnv := ⟨fun _ => none, fun _ => .noMain⟩

/-- C9 witness: the concrete call with pages = 0 returns no articles and
issued no fetch of either kind. -/
theorem crawl_nonpos_pages_witness :
    (0 : Int) ≤ 0 ∧
    crawl_etnews_articles newsEnvC9 ("kw") 0 = ⟨[], 0, 0⟩ :=
  ⟨by decide, crawl_nonpos_pages newsEnvC9 ("kw") 0 (by decide)⟩

theorem crawlPages_mem_failed (env : NewsEnv) (keyword : String)
    {p : Int} {boxes : List Candidate} {c : Candidate} {tt : TitleTag}
    {dt e : String}
    (hs : env.search p = some boxes) (hc : c ∈ boxes)
    (ht : c.title_tag = some tt) (hd : c.date_tag = some dt)
    (hf : env.article tt.href = .fail e) :
    ∀ ps : List Int, p ∈ ps →
      (⟨pyStrip tt.text, tt.href, (findDate dt).getD (""), failContent e, keyword⟩ :
        Article) ∈ (crawlPages env keyword ps).articles := by
  intro ps
  induction ps with
  | nil => intro hp; exact absurd hp (by simp)
  | cons q ps ih =>
    intro hp
    unfold crawlPages
    rcases List.mem_cons.mp hp with heq | htail
    · subst heq
      rw [hs]
      apply List.mem_append_left
      apply List.mem_filterMap.mpr
      refine ⟨c, hc, ?_⟩
      simp [candidateArticle, ht, hd, hf]
    · cases hq : env.search q with
      | none => exact ih htail
      | some bs => exact List.mem_append_right _ (ih htail)

/-- C4: a candidate that survives the title/date filter but whose
full-article fetch fails is still appended: the resulting Article is in
the crawler's output with all five fields set, its content being the
human-readable failure placeholder embedding the error text.  No article
is dropped solely because its full-text fetch failed. -/
theorem crawl_failed_fetch_kept (env : NewsEnv) (keyword : String)
    (pages p : Int) (boxes : List Candidate) (c : Candidate) (tt : TitleTag)
    (dt e : String)
    (hp : p ∈ pageRange pages)
    (hs : env.search p = some boxes) (hc : c ∈ boxes)
    (ht : c.title_tag = some tt) (hd : c.date_tag = some dt)
    (hf : env.article tt.href = .fail e) :
    (⟨pyStrip tt.text, tt.href, (findDate dt).getD (""), failContent e, keyword⟩ :
      Article) ∈ (crawl_etnews_articles env keyword pages).articles :=
  crawlPages_mem_failed env keyword hs hc ht hd hf (pageRange pages) hp

def newsEnvC4 : NewsEnv :=
  ⟨fun p => if p = 1 then some [⟨some ⟨" T ", "L"⟩, some ("d 2024-01-02")⟩] else none,
   fun _ => .fail ("ERR")⟩

/-- C4 witness: a concrete crawl in which the article fetch fails, yet
the article appears in the output with the placeholder content. -/
theorem crawl_failed_fetch_kept_witness :
    (⟨"T", "L", "2024-01-02", "(抓取失敗: ERR)", "kw"⟩ : Article)
      ∈ (crawl_etnews_articles newsEnvC4 ("kw") 1).articles :=
  crawl_failed_fetch_kept newsEnvC4 ("kw") 1 1
    [⟨some ⟨" T ", "L"⟩, some ("d 2024-01-02")⟩]
    ⟨some ⟨" T ", "L"⟩, some ("d 2024-01-02")⟩ ⟨" T ", "L"⟩
    ("d 2024-01-02") ("ERR")
    (by decide) rfl (by decide) rfl rfl rfl

/-! ## Lemmas about the article-block rendering -/

theorem pySliceTo_nonneg {α : Type} (k : Int) (h : 0 ≤ k) (xs : List α) :
    pySliceTo k xs = xs.take k.toNat := by
  unfold pySliceTo
  rw [if_pos h]

/-- C7 (amended): for 0 ≤ maxArticles, the rendered docs are exactly the
blocks of the first maxArticles articles in order, there are at most
maxArticles of them, and each block's body is the content truncated to at
most 3000 characters. -/
theorem mkDocs_bounded (articles : List Article) (limit : Int)
    (h : 0 ≤ limit) :
    mkDocs articles limit =
      ((articles.take limit.toNat).enum.map (fun p => articleDoc p.1 p.2)) ∧
    (mkDocs articles limit).length ≤ limit.toNat ∧
    ∀ p ∈ (articles.take limit.toNat).enum,
      articleDoc p.1 p.2 =
        "【第 " ++ toString (p.1 + 1) ++ " 篇】\n標題：" ++ p.2.title ++
          "\n連結：" ++ p.2.link ++ "\n內文：\n" ++ strTake 3000 p.2.content ++ "\n" ∧
      (strTake 3000 p.2.content).length ≤ 3000 := by
  refine ⟨by rw [mkDocs, pySliceTo_nonneg limit h], ?_, ?_⟩
  · rw [mkDocs, pySliceTo_nonneg limit h, List.length_map, List.enum_length]
    exact List.length_take_le _ _
  · intro p _
    refine ⟨rfl, ?_⟩
    have h2 : (p.2.content.data.take 3000).length ≤ 3000 := by
      rw [List.length_take]
      exact min_le_left _ _
    exact h2

def articleC7 : Article := ⟨"t", "l", "d", "c", "k"⟩

/-- C7 counterexample: with maxArticles = -1 and two articles, Python
slicing keeps one block (all but the last entry), so the emitted block
count is not at most maxArticles and the kept entry is not a prefix of
length maxArticles. -/
theorem mkDocs_negative_limit_cex :
    (mkDocs [articleC7, articleC7] (-1)).length = 1 ∧
    ¬ (((mkDocs [articleC7, articleC7] (-1)).length : Int) ≤ -1) := by
  constructor
  · rfl
  · decide

def articleC7w : Article := ⟨"t2", "l2", "d2", "c2", "k2"⟩

/-- C7 witness: the amended statement applied at limit = 1 over a
two-article list. -/
theorem mkDocs_bounded_witness :
    (0 : Int) ≤ 1 ∧
    (mkDocs [articleC7w, articleC7w] 1 =
      (([articleC7w, articleC7w].take (1 : Int).toNat).enum.map
        (fun p => articleDoc p.1 p.2)) ∧
    (mkDocs [articleC7w, articleC7w] 1).length ≤ (1 : Int).toNat ∧
    ∀ p ∈ ([articleC7w, articleC7w].take (1 : Int).toNat).enum,
      articleDoc p.1 p.2 =
        "【第 " ++ toString (p.1 + 1) ++ " 篇】\n標題：" ++ p.2.title ++
          "\n連結：" ++ p.2.link ++ "\n內文：\n" ++ strTake 3000 p.2.content ++ "\n" ∧
      (strTake 3000 p.2.content).length ≤ 3000) :=
  ⟨by decide, mkDocs_bounded [articleC7w, articleC7w] 1 (by decide)⟩

/-! ## JSON values and json.loads (used by parse_question and the
pipeline entry points)

A Json value mirrors what json.loads can return.  Numbers keep their
source lexeme: no claim depends on numeric value, only on string fields,
truthiness and key membership.
-/

inductive Json where
  | null
  | bool (b : Bool)
  | num (lexeme : String)
  | str (s : String)
  | arr (elems : List Json)
  | obj (fields : List (String × Json))

/-- The whitespace characters json.loads skips between tokens. -/
def jsonWs (c : Char) : Bool := c == ' ' || c == '\t' || c == '\n' || c == '\r'

def skipWs (l : List Char) : List Char := l.dropWhile jsonWs

def hexVal (c : Char) : Option Nat :=
  if '0' ≤ c && c ≤ '9' then some (c.toNat - 48)
  else if 'a' ≤ c && c ≤ 'f' then some (c.toNat - 87)
  else if 'A' ≤ c && c ≤ 'F' then some (c.toNat - 55)
  else none

/-- JSON string body parser, after the opening quote: handles the simple
escapes and \uXXXX, rejects raw control characters, stops at the closing
quote.  Returns the string and the remaining input. -/
def parseJStringAux : List Char → List Char → Option (String × List Char)
  | acc, '\"' :: rest => some (String.mk acc.reverse, rest)
  | acc, '\\' :: 'u' :: h1 :: h2 :: h3 :: h4 :: rest =>
    match hexVal h1, hexVal h2, hexVal h3, hexVal h4 with
    | some a, some b, some c, some d =>
      parseJStringAux (Char.ofNat (((a * 16 + b) * 16 + c) * 16 + d) :: acc) rest
    | _, _, _, _ => none
  | acc, '\\' :: c :: rest =>
    (match c with
     | '\"' => some '\"'
     | '\\' => some '\\'
     | '/' => some '/'
     | 'b' => some (Char.ofNat 8)
     | 'f' => some (Char.ofNat 12)
     | 'n' => some '\n'
     | 'r' => some '\r'
     | 't' => some '\t'
     | _ => none).bind (fun ch => parseJStringAux (ch :: acc) rest)
  | acc, c :: rest =>
    if c.toNat < 32 then none else parseJStringAux (c :: acc) rest
  | _, [] => none

/-- Strict JSON number grammar plus the NaN/Infinity extensions json.loads
accepts by default.  Returns the lexeme and the remaining input. -/
def parseNumber (l : List Char) : Option (String × List Char) :=
  let intPart : List Char → Option (List Char × List Char) := fun l2 =>
    match l2 with
    | 'I' :: 'n' :: 'f' :: 'i' :: 'n' :: 'i' :: 't' :: 'y' :: rest =>
      some ("Infinity".data, rest)
    | '0' :: rest => some (['0'], rest)
    | c :: rest =>
      if c.isDigit then
        let s := rest.span Char.isDigit
        some (c :: s.1, s.2)
      else none
    | [] => none
  let fracPart : List Char → Option (List Char × List Char) := fun l2 =>
    match l2 with
    | '.' :: rest =>
      let s := rest.span Char.isDigit
      if s.1.isEmpty then none else some ('.' :: s.1, s.2)
    | _ => some ([], l2)
  let expPart : List Char → Option (List Char × List Char) := fun l2 =>
    match l2 with
    | c :: rest =>
      if c == 'e' || c == 'E' then
        match rest with
        | s :: rest2 =>
          if s == '+' || s == '-' then
            let d := rest2.span Char.isDigit
            if d.1.isEmpty then none else some (c :: s :: d.1, d.2)
          else
            let d := rest.span Char.isDigit
            if d.1.isEmpty then none else some (c :: d.1, d.2)
        | [] => none
      else some ([], l2)
    | [] => some ([], l2)
  match l with
  | '-' :: rest =>
    (intPart rest).bind (fun p1 =>
      if p1.1 == "Infinity".data then some (String.mk ('-' :: p1.1), p1.2)
      else
        (fracPart p1.2).bind (fun p2 =>
          (expPart p2.2).map (fun p3 =>
            (String.mk ('-' :: (p1.1 ++ p2.1 ++ p3.1)), p3.2))))
  | _ =>
    (intPart l).bind (fun p1 =>
      if p1.1 == "Infinity".data then some (String.mk p1.1, p1.2)
      else
        (fracPart p1.2).bind (fun p2 =>
          (expPart p2.2).map (fun p3 =>
            (String.mk (p1.1 ++ p2.1 ++ p3.1), p3.2))))

mutual

/-- Recursive-descent JSON value parser with fuel (the fuel bounds the
nesting depth; every nesting level consumes at least one input
character, so input length + 1 fuel always suffices). -/
def parseVal : Nat → List Char → Option (Json × List Char)
  | 0, _ => none
  | fuel + 1, l =>
    match skipWs l with
    | 'n' :: 'u' :: 'l' :: 'l' :: rest => some (.null, rest)
    | 't' :: 'r' :: 'u' :: 'e' :: rest => some (.bool true, rest)
    | 'f' :: 'a' :: 'l' :: 's' :: 'e' :: rest => some (.bool false, rest)
    | 'N' :: 'a' :: 'N' :: rest => some (.num ("NaN"), rest)
    | '\"' :: rest =>
      match parseJStringAux [] rest with
      | some (s, rest2) => some (.str s, rest2)
      | none => none
    | '[' :: rest =>
      match skipWs rest with
      | ']' :: rest2 => some (.arr [], rest2)
      | _ =>
        match parseVal fuel rest with
        | some (v, rest2) => parseArrRest fuel [v] rest2
        | none => none
    | '\x7b' :: rest =>
      match skipWs rest with
      | '\x7d' :: rest2 => some (.obj [], rest2)
      | '\"' :: rest2 =>
        match parseJStringAux [] rest2 with
        | some (k, rest3) =>
          match skipWs rest3 with
          | ':' :: rest4 =>
            match parseVal fuel rest4 with
            | some (v, rest5) => parseObjRest fuel [(k, v)] rest5
            | none => none
          | _ => none
        | none => none
      | _ => none
    | l2 =>
      match parseNumber l2 with
      | some (lex, rest) => some (.num lex, rest)
      | none => none

/-- Continuation of an array after at least one parsed element
(elements accumulated in reverse). -/
def parseArrRest : Nat → List Json → List Char → Option (Json × List Char)
  | 0, _, _ => none
  | fuel + 1, acc, l =>
    match skipWs l with
    | ',' :: rest =>
      match parseVal fuel rest with
      | some (v, rest2) => parseArrRest fuel (v :: acc) rest2
      | none => none
    | ']' :: rest => some (.arr acc.reverse, rest)
    | _ => none

/-- Continuation of an object after at least one parsed member
(members accumulated in reverse). -/
def parseObjRest : Nat → List (String × Json) → List Char →
    Option (Json × List Char)
  | 0, _, _ => none
  | fuel + 1, acc, l =>
    match skipWs l with
    | ',' :: rest =>
      match skipWs rest with
      | '\"' :: rest2 =>
        match parseJStringAux [] rest2 with
        | some (k, rest3) =>
          match skipWs rest3 with
          | ':' :: rest4 =>
            match parseVal fuel rest4 with
            | some (v, rest5) => parseObjRest fuel ((k, v) :: acc) rest5
            | none => none
          | _ => none
        | none => none
      | _ => none
    | '\x7d' :: rest => some (.obj acc.reverse, rest)
    | _ => none

end

/-- json.loads(s): parse one JSON value and require only whitespace to
remain; any other input yields none (a JSONDecodeError in the source). -/
def jsonParse (s : String) : Option Json :=
  match parseVal (s.data.length + 1) s.data with
  | some (j, rest) => if (skipWs rest).isEmpty then some j else none
  | none => none

/-! ## Python value semantics used by the orchestration code -/

/-- A single-quote character, for Python repr rendering. -/
def squote (s : String) : String := String.mk ('\'' :: s.data ++ ['\''])

/-- Python repr of a decoded JSON value (fuel-bounded structural
recursion; quote escaping inside repr'd strings is not modelled, and no
claim depends on it).  Used by str() on lists and dicts. -/
def pyReprF : Nat → Json → String
  | _, .null => "None"
  | _, .bool true => "True"
  | _, .bool false => "False"
  | _, .num lex => lex
  | _, .str s => squote s
  | 0, .arr _ => ""
  | 0, .obj _ => ""
  | fuel + 1, .arr xs =>
    "[" ++ String.intercalate (", ") (xs.map (pyReprF fuel)) ++ "]"
  | fuel + 1, .obj kvs =>
    "\x7b" ++
      String.intercalate (", ")
        (kvs.map (fun kv => squote kv.1 ++ ": " ++ pyReprF fuel kv.2)) ++
    "\x7d"

mutual

/-- Nesting depth of a JSON value (enough fuel for pyReprF). -/
def jsonDepth : Json → Nat
  | .arr xs => jsonDepthL xs + 1
  | .obj kvs => jsonDepthF kvs + 1
  | .null => 1
  | .bool _ => 1
  | .num _ => 1
  | .str _ => 1

def jsonDepthL : List Json → Nat
  | [] => 0
  | x :: xs => max (jsonDepth x) (jsonDepthL xs)

def jsonDepthF : List (String × Json) → Nat
  | [] => 0
  | kv :: kvs => max (jsonDepth kv.2) (jsonDepthF kvs)

end

/-- Python str() / f-string interpolation of a decoded JSON value. -/
def pyStr : Json → String
  | .str s => s
  | .num lex => lex
  | .bool true => "True"
  | .bool false => "False"
  | .null => "None"
  | .arr xs => pyReprF (jsonDepth (.arr xs)) (.arr xs)
  | .obj kvs => pyReprF (jsonDepth (.obj kvs)) (.obj kvs)

/-- Whether a number lexeme denotes a nonzero value (for truthiness). -/
def numNonzero (lex : String) : Bool :=
  let mant := lex.data.takeWhile (fun c => c != 'e' && c != 'E')
  if mant.any Char.isDigit then mant.any (fun c => c.isDigit && c != '0')
  else true

/-- Python truthiness of a decoded JSON value. -/
def pyTruthy : Json → Bool
  | .null => false
  | .bool b => b
  | .num lex => numNonzero lex
  | .str s => !s.data.isEmpty
  | .arr xs => !xs.isEmpty
  | .obj kvs => !kvs.isEmpty

/-- Last-wins association lookup: json.loads keeps the last duplicate
key, and dict lookup then sees that binding. -/
def lookupLast (kvs : List (String × Json)) (k : String) : Option Json :=
  kvs.foldl (fun acc kv => if kv.1 == k then some kv.2 else acc) none

/-- Substring test, for Python's "needle in haystack" on strings. -/
def containsSub (needle hay : String) : Bool :=
  (List.range (hay.data.length + 1)).any
    (fun i => needle.data.isPrefixOf (hay.data.drop i))

/-- Python "k in x" for a decoded JSON value x: key membership for
dicts, element equality for lists, substring test for strings, and a
TypeError (uncaught exception) otherwise. -/
def pyContains (k : String) : Json → Except String Bool
  | .obj kvs => .ok (kvs.any (fun kv => kv.1 == k))
  | .arr xs =>
    .ok (xs.any (fun x => match x with | .str s => s == k | _ => false))
  | .str s => .ok (containsSub k s)
  | _ => .error ("TypeError")

/-- Python x[k] for a decoded JSON value x: dict indexing with KeyError
on a missing key, TypeError on a non-dict. -/
def pyIndex (j : Json) (k : String) : Except String Json :=
  match j with
  | .obj kvs =>
    match lookupLast kvs k with
    | some v => .ok v
    | none => .error ("KeyError")
  | _ => .error ("TypeError")

/-- Python x.get(k, d): dict get with default, AttributeError on a
non-dict. -/
def pyGetAttr (j : Json) (k : String) (d : Json) : Except String Json :=
  match j with
  | .obj kvs => .ok ((lookupLast kvs k).getD d)
  | _ => .error ("AttributeError")

/-! ## parse_question (mc.py lines 47-74 and mo.py lines 19-49)

The model call is a collaborator: its outcome is passed in as an
Except String String (error = the call raised, carrying the exception
text).  decodeErr renders str(e) of the JSONDecodeError for a given
non-JSON text; the orchestration code only splices it into a message.
-/

/-- The value parse_question hands back to its caller: the decoded JSON
(parsed), the error dict with raw text (errRaw, carrying the text that
failed to parse), or the error dict without raw (errOnly, mo.py's
catch-all for a failed model call). -/
inductive ParseOut where
  | parsed (j : Json)
  | errRaw (msg raw : String)
  | errOnly (msg : String)

/-- mc.py parse_question: the model call is outside any try block, so a
call failure propagates (Except.error).  The response is stripped, then
json.loads'd; on decode failure the error dict carries the stripped
text as "raw". -/
def mc_parse_question (call : Except String String)
    (decodeErr : String → String) : Except String ParseOut :=
  match call with
  | .error e => .error e
  | .ok content =>
    let result := pyStrip content
    match jsonParse result with
    | some j => .ok (.parsed j)
    | none => .ok (.errRaw ("解析失敗：" ++ decodeErr result) result)

/-- mo.py parse_question: the whole body is inside try, so a call
failure becomes the error dict without raw; a JSONDecodeError becomes
the error dict with the stripped text as "raw". -/
def mo_parse_question (call : Except String String)
    (decodeErr : String → String) : ParseOut :=
  match call with
  | .error e => .errOnly ("解析失敗：" ++ e)
  | .ok content =>
    let result := pyStrip content
    match jsonParse result with
    | some j => .parsed j
    | none =>
      .errRaw ("解析失敗：無法解析 JSON: " ++ decodeErr result) result

/-- C6 (amended): for every model response whose stripped text is not
valid JSON, both parse_question variants return the structured error
dict (no uncaught exception) whose raw field is exactly the stripped
response text that was handed to json.loads. -/
theorem parse_question_non_json (r : String) (decodeErr : String → String)
    (h : jsonParse (pyStrip r) = none) :
    mc_parse_question (.ok r) decodeErr =
      .ok (.errRaw ("解析失敗：" ++ decodeErr (pyStrip r)) (pyStrip r)) ∧
    mo_parse_question (.ok r) decodeErr =
      .errRaw ("解析失敗：無法解析 JSON: " ++ decodeErr (pyStrip r))
        (pyStrip r) := by
  constructor
  · unfold mc_parse_question
    simp only [h]
  · unfold mo_parse_question
    simp only [h]

/-- C6 witness: the amended statement applied to the concrete non-JSON
response "not json". -/
theorem parse_question_non_json_witness :
    jsonParse (pyStrip ("not json")) = none ∧
    (mc_parse_question (.ok ("not json")) (fun _ => "E") =
      .ok (.errRaw ("解析失敗：" ++ (fun _ : String => "E") (pyStrip ("not json")))
        (pyStrip ("not json"))) ∧
    mo_parse_question (.ok ("not json")) (fun _ => "E") =
      .errRaw ("解析失敗：無法解析 JSON: " ++
          (fun _ : String => "E") (pyStrip ("not json")))
        (pyStrip ("not json"))) :=
  ⟨rfl, parse_question_non_json ("not json") (fun _ => "E") rfl⟩

/-- C6 counterexample: the response " @" is not valid JSON, and the
returned error dict's raw field is the stripped text "@", not the
original response " @" — the original raw response is not carried
unmodified when it has surrounding whitespace. -/
theorem parse_question_raw_stripped_cex :
    mc_parse_question (.ok (" @")) (fun _ => "E") =
      .ok (.errRaw ("解析失敗：E") ("@")) ∧
    ("@" : String) ≠ " @" :=
  ⟨rfl, by decide⟩

/-! ## etnews_finance_summary (mc.py lines 150-172 and mo.py lines
112-153)

Both variants: parse the question, bail out with an error dict when the
parse result carries an "error" key, build the keyword from company and
topic, crawl, return an advisory string when no keyword or no articles,
otherwise make the one synthesis model call.  The two variants differ
only in parse_question (mc's can propagate a model-call exception) and
in the final call: mo.py wraps it in try/except, mc.py's _gpt_answer
does not.  The corpus and prompt building (modelled by mkDocs) is pure
string work with no effect on control flow, so the synthesis call's
outcome is the collaborator parameter synthCall.
-/

/-- The value the pipeline returns to its caller: the error dict
(status/message/raw) or a plain string. -/
inductive PipeOut where
  | errDict (message : String) (raw : Json)
  | text (s : String)

/-- Pipeline result plus how many search requests, article requests and
synthesis model-call attempts were made. -/
structure PipeResult where
  out : PipeOut
  searchFetches : Nat
  articleFetches : Nat
  synthCalls : Nat

/-- Collaborator outcomes for one pipeline invocation. -/
structure PipelineEnv where
  parseCall : Except String String
  decodeErr : String → String
  news : NewsEnv
  synthCall : Except String String

/-- The shared body after parse_question returned: mc.py lines 156-172,
mo.py lines 118-153.  catchSynth tells whether the final model call is
wrapped in try/except (mo.py) or not (mc.py's _gpt_answer). -/
def etnews_core (env : PipelineEnv) (pages limit : Int) (po : ParseOut)
    (catchSynth : Bool) : Except String PipeResult :=
  match po with
  | .errRaw msg raw =>
    .ok ⟨.errDict ("問題解析失敗：" ++ msg) (.str raw), 0, 0, 0⟩
  | .errOnly msg => .ok ⟨.errDict ("問題解析失敗：" ++ msg) (.str ""), 0, 0, 0⟩
  | .parsed j =>
    match pyContains ("error") j with
    | .error e => .error e
    | .ok true =>
      match pyIndex j ("error") with
      | .error e => .error e
      | .ok ev =>
        match pyGetAttr j ("raw") (.str "") with
        | .error e => .error e
        | .ok rv => .ok ⟨.errDict ("問題解析失敗：" ++ pyStr ev) rv, 0, 0, 0⟩
    | .ok false =>
      match pyGetAttr j ("company") (.str ""), pyGetAttr j ("topic") (.str "") with
      | .error e, _ => .error e
      | .ok _, .error e => .error e
      | .ok cv, .ok tv =>
        let keyword := pyStrip (pyStr cv ++ pyStr tv)
        if keyword.data.isEmpty then
          .ok ⟨.text ("⚠️ 無法組出有效關鍵字"), 0, 0, 0⟩
        else
          let cr := crawl_etnews_articles env.news keyword pages
          if cr.articles.isEmpty then
            .ok ⟨.text ("⚠️ 找不到符合條件的新聞。請換個問題試試。"),
              cr.searchFetches, cr.articleFetches, 0⟩
          else
            -- the prompt built from mkDocs cr.articles limit is pure
            -- string work; only the call outcome matters here
            match env.synthCall with
            | .ok ans =>
              .ok ⟨.text (pyStrip ans), cr.searchFetches, cr.articleFetches, 1⟩
            | .error e =>
              if catchSynth then
                .ok ⟨.text ("❌ GPT 分析失敗：" ++ e),
                  cr.searchFetches, cr.articleFetches, 1⟩
              else .error e

/-- mc.py etnews_finance_summary: parse_question may propagate a
model-call exception, and the final call (_gpt_answer) is not wrapped
in try/except. -/
def mc_etnews_finance_summary (env : PipelineEnv) (question : String)
    (pages limit : Int) : Except String PipeResult :=
  match mc_parse_question env.parseCall env.decodeErr with
  | .error e => .error e
  | .ok po => etnews_core env pages limit po false

/-- mo.py etnews_finance_summary: parse_question absorbs a model-call
exception, and the final call is wrapped in try/except. -/
def mo_etnews_finance_summary (env : PipelineEnv) (question : String)
    (pages limit : Int) : Except String PipeResult :=
  etnews_core env pages limit (mo_parse_question env.parseCall env.decodeErr)
    true

/-- C8 (amended): when parsing succeeds without an "error" key, the
keyword is non-empty and the crawl returns no articles, both pipeline
variants return the advisory string "⚠️ 找不到符合條件的新聞。請換個問題試試。"
(the advisory prefixed with a warning sign) and make no synthesis
model-call attempt. -/
theorem etnews_no_articles_advisory (env : PipelineEnv) (question : String)
    (pages limit : Int) (r : String) (j cv tv : Json)
    (hcall : env.parseCall = .ok r)
    (hj : jsonParse (pyStrip r) = some j)
    (he : pyContains ("error") j = .ok false)
    (hcv : pyGetAttr j ("company") (.str "") = .ok cv)
    (htv : pyGetAttr j ("topic") (.str "") = .ok tv)
    (hkw : (pyStrip (pyStr cv ++ pyStr tv)).data.isEmpty = false)
    (hart : (crawl_etnews_articles env.news (pyStrip (pyStr cv ++ pyStr tv))
        pages).articles.isEmpty = true) :
    mc_etnews_finance_summary env question pages limit =
      .ok ⟨.text ("⚠️ 找不到符合條件的新聞。請換個問題試試。"),
        (crawl_etnews_articles env.news (pyStrip (pyStr cv ++ pyStr tv))
          pages).searchFetches,
        (crawl_etnews_articles env.news (pyStrip (pyStr cv ++ pyStr tv))
          pages).articleFetches, 0⟩ ∧
    mo_etnews_finance_summary env question pages limit =
      .ok ⟨.text ("⚠️ 找不到符合條件的新聞。請換個問題試試。"),
        (crawl_etnews_articles env.news (pyStrip (pyStr cv ++ pyStr tv))
          pages).searchFetches,
        (crawl_etnews_articles env.news (pyStrip (pyStr cv ++ pyStr tv))
          pages).articleFetches, 0⟩ := by
  constructor
  · unfold mc_etnews_finance_summary mc_parse_question etnews_core
    rw [hcall]
    simp [hj, he, hcv, htv, hkw, hart]
  · unfold mo_etnews_finance_summary mo_parse_question etnews_core
    rw [hcall]
    simp [hj, he, hcv, htv, hkw, hart]

def pipeEnvC8 : PipelineEnv :=
  ⟨.ok ("\x7b\"company\": \"X\", \"topic\": \"Y\"\x7d"), fun _ => "E",
   ⟨fun _ => some [], fun _ => .noMain⟩, .ok ("")⟩

/-- C8 counterexample: on a concrete run with zero search results the
pipeline's return value is "⚠️ 找不到符合條件的新聞。請換個問題試試。", which is not
the string "找不到符合條件的新聞。請換個問題試試。" stated by the claim. -/
theorem etnews_advisory_prefix_cex :
    mc_etnews_finance_summary pipeEnvC8 ("q") 1 5 =
      .ok ⟨.text ("⚠️ 找不到符合條件的新聞。請換個問題試試。"), 1, 0, 0⟩ ∧
    ("⚠️ 找不到符合條件的新聞。請換個問題試試。" : String) ≠
      "找不到符合條件的新聞。請換個問題試試。" :=
  ⟨rfl, by decide⟩

def pipeEnvC8w : PipelineEnv :=
  ⟨.ok ("\x7b\"company\": \"W\", \"topic\": \"Z\"\x7d"), fun _ => "E",
   ⟨fun _ => some [], fun _ => .noMain⟩, .ok ("")⟩

/-- C8 witness: the amended statement applied to a concrete
environment whose crawl finds nothing. -/
theorem etnews_no_articles_advisory_witness :
    mc_etnews_finance_summary pipeEnvC8w ("q") 1 5 =
      .ok ⟨.text ("⚠️ 找不到符合條件的新聞。請換個問題試試。"), 1, 0, 0⟩ ∧
    mo_etnews_finance_summary pipeEnvC8w ("q") 1 5 =
      .ok ⟨.text ("⚠️ 找不到符合條件的新聞。請換個問題試試。"), 1, 0, 0⟩ :=
  etnews_no_articles_advisory pipeEnvC8w ("q") 1 5
    ("\x7b\"company\": \"W\", \"topic\": \"Z\"\x7d")
    (.obj [("company", .str "W"), ("topic", .str "Z")]) (.str "W") (.str "Z")
    rfl rfl rfl rfl rfl rfl rfl

/-- C5 (amended): when articles were found and the synthesis model call
fails, mo.py's variant catches the failure and returns the user-facing
error string "❌ GPT 分析失敗：{e}" after exactly one call attempt (no
retry), while mc.py's variant (_gpt_answer has no try/except) lets the
exception propagate uncaught. -/
theorem synth_failure_handling (env : PipelineEnv) (question : String)
    (pages limit : Int) (r : String) (j cv tv : Json) (e : String)
    (hcall : env.parseCall = .ok r)
    (hj : jsonParse (pyStrip r) = some j)
    (he : pyContains ("error") j = .ok false)
    (hcv : pyGetAttr j ("company") (.str "") = .ok cv)
    (htv : pyGetAttr j ("topic") (.str "") = .ok tv)
    (hkw : (pyStrip (pyStr cv ++ pyStr tv)).data.isEmpty = false)
    (hart : (crawl_etnews_articles env.news (pyStrip (pyStr cv ++ pyStr tv))
        pages).articles.isEmpty = false)
    (hs : env.synthCall = .error e) :
    mo_etnews_finance_summary env question pages limit =
      .ok ⟨.text ("❌ GPT 分析失敗：" ++ e),
        (crawl_etnews_articles env.news (pyStrip (pyStr cv ++ pyStr tv))
          pages).searchFetches,
        (crawl_etnews_articles env.news (pyStrip (pyStr cv ++ pyStr tv))
          pages).articleFetches, 1⟩ ∧
    mc_etnews_finance_summary env question pages limit = .error e := by
  constructor
  · unfold mo_etnews_finance_summary mo_parse_question etnews_core
    rw [hcall]
    simp [hj, he, hcv, htv, hkw, hart, hs]
  · unfold mc_etnews_finance_summary mc_parse_question etnews_core
    rw [hcall]
    simp [hj, he, hcv, htv, hkw, hart, hs]

def pipeEnvC5 : PipelineEnv :=
  ⟨.ok ("\x7b\"company\": \"X\", \"topic\": \"Y\"\x7d"), fun _ => "E",
   ⟨fun _ => some [⟨some ⟨"T", "L"⟩, some ("2024-01-02")⟩],
    fun _ => .main ("B")⟩,
   .error ("boom")⟩

/-- C5 counterexample: on a concrete run where the synthesis model call
raises, mc.py's etnews_finance_summary ends in an uncaught exception
rather than a user-facing error string. -/
theorem mc_synth_failure_cex :
    mc_etnews_finance_summary pipeEnvC5 ("q") 1 5 = .error ("boom") := rfl

def pipeEnvC5w : PipelineEnv :=
  ⟨.ok ("\x7b\"company\": \"V\", \"topic\": \"U\"\x7d"), fun _ => "E",
   ⟨fun _ => some [⟨some ⟨"T", "L"⟩, some ("2024-01-02")⟩],
    fun _ => .main ("B")⟩,
   .error ("boom")⟩

/-- C5 witness: the amended statement applied to a concrete environment
with one article and a failing synthesis call. -/
theorem synth_failure_handling_witness :
    mo_etnews_finance_summary pipeEnvC5w ("q") 1 5 =
      .ok ⟨.text ("❌ GPT 分析失敗：boom"), 1, 1, 1⟩ ∧
    mc_etnews_finance_summary pipeEnvC5w ("q") 1 5 = .error ("boom") :=
  synth_failure_handling pipeEnvC5w ("q") 1 5
    ("\x7b\"company\": \"V\", \"topic\": \"U\"\x7d")
    (.obj [("company", .str "V"), ("topic", .str "U")]) (.str "V") (.str "U")
    ("boom") rfl rfl rfl rfl rfl rfl rfl rfl

/-! ## fetch_mops_report (tools/mops_report.py lines 19-78)

For every (stock_id, year, season) of the cross product (stock outer,
year middle, season inner) the code first checks the on-disk cache file
for the composite key.  On a miss it launches a headless driver and
navigates to the filing page; NOTE that webdriver.Chrome(...) and
driver.get(url) sit outside the try block, so an exception there
propagates and aborts the whole batch.  Inside the try block it waits
up to 15 s for a table element, parses up to the first five tables
(a single table's parse failure skips just that table), records the
parsed list under the key and writes it to the cache file; any
exception inside the try block records None for the key — and does NOT
write anything to the cache file.

The collaborator outcome for one uncached combination is a MopsOutcome:
crash   = webdriver.Chrome or driver.get raised (uncaught),
noTables = the wait timed out or something else raised inside try,
tables ts = the page rendered with raw tables ts, each being either
            none (pandas parse of that table raised) or the parsed
            payload.
The pandas mechanics (header flattening, dropna) are inside this
collaborator boundary.  Except.error n models the uncaught abort, with
n the number of page retrievals completed before the crashing one.
-/

/-- Payload of one successfully parsed raw table. -/
structure ParsedTable where
  preview : String
  data : List (List (String × String))
deriving DecidableEq

/-- One table record as stored in the results and the cache:
table_index is the position within the first five raw tables. -/
structure MopsTable where
  table_index : Nat
  preview : String
  data : List (List (String × String))
deriving DecidableEq

/-- Collaborator outcome for one uncached (stock, year, season). -/
inductive MopsOutcome where
  | crash
  | noTables
  | tables (ts : List (Option ParsedTable))

/-- State threaded through the batch: the accumulated results mapping
(in insertion order), the cache store (file name to stored list), and
the number of filing-page retrievals performed. -/
structure MopsState where
  results : List (String × Option (List MopsTable))
  store : List (String × List MopsTable)
  fetches : Nat
deriving DecidableEq

/-- Cache lookup by file name (first binding wins; writes prepend). -/
def storeLookup (s : List (String × List MopsTable)) (k : String) :
    Option (List MopsTable) :=
  match s with
  | [] => none
  | kv :: rest => if kv.1 == k then some kv.2 else storeLookup rest k

/-- key = f"{stock_id}_{year}Q{season}". -/
def mopsKey (sid : String) (y s : Int) : String :=
  sid ++ "_" ++ toString y ++ "Q" ++ toString s

/-- Parse up to the first 5 raw tables; a table whose parse raised is
skipped, the others keep their enumeration index. -/
def parseTables (ts : List (Option ParsedTable)) : List MopsTable :=
  (ts.take 5).enum.filterMap
    (fun p => p.2.map (fun t => ⟨p.1, t.preview, t.data⟩))

/-- One combination of the batch loop: cache hit is used as is; on a
miss, a crash aborts the batch, an in-try failure records none for the
key (and writes nothing to the store), a rendered page records and
stores the parsed tables. -/
def mopsStep (envm : String → Int → Int → MopsOutcome) (st : MopsState)
    (c : String × Int × Int) : Except Nat MopsState :=
  match storeLookup st.store (mopsKey c.1 c.2.1 c.2.2) with
  | some v =>
    .ok ⟨st.results ++ [(mopsKey c.1 c.2.1 c.2.2, some v)], st.store,
      st.fetches⟩
  | none =>
    match envm c.1 c.2.1 c.2.2 with
    | .crash => .error st.fetches
    | .noTables =>
      .ok ⟨st.results ++ [(mopsKey c.1 c.2.1 c.2.2, none)], st.store,
        st.fetches + 1⟩
    | .tables ts =>
      .ok ⟨st.results ++ [(mopsKey c.1 c.2.1 c.2.2, some (parseTables ts))],
        (mopsKey c.1 c.2.1 c.2.2, parseTables ts) :: st.store,
        st.fetches + 1⟩

/-- The batch loop over the remaining combinations. -/
def mopsRun (envm : String → Int → Int → MopsOutcome) :
    List (String × Int × Int) → MopsState → Except Nat MopsState
  | [], st => .ok st
  | c :: cs, st =>
    match mopsStep envm st c with
    | .error n => .error n
    | .ok st2 => mopsRun envm cs st2

/-- The cross product stock_ids × years × seasons in loop order. -/
def mopsCombos (sids : List String) (ys ss : List Int) :
    List (String × Int × Int) :=
  sids.flatMap (fun sid => ys.flatMap (fun y => ss.map (fun s => (sid, y, s))))

/-- fetch_mops_report(stock_ids, years, seasons) against a given cache
store. -/
def fetch_mops_report (envm : String → Int → Int → MopsOutcome)
    (sids : List String) (ys ss : List Int)
    (store : List (String × List MopsTable)) : Except Nat MopsState :=
  mopsRun envm (mopsCombos sids ys ss) ⟨[], store, 0⟩

/-! ## Lemmas about the batch loop -/

theorem mopsStep_char (envm : String → Int → Int → MopsOutcome)
    (st : MopsState) (c : String × Int × Int) (st2 : MopsState)
    (h : mopsStep envm st c = .ok st2) :
    ∃ v, st2.results = st.results ++ [(mopsKey c.1 c.2.1 c.2.2, v)] ∧
      (v = none → envm c.1 c.2.1 c.2.2 = .noTables) ∧
      (∀ k w, storeLookup st.store k = some w →
        storeLookup st2.store k = some w) ∧
      (∀ w, v = some w →
        storeLookup st2.store (mopsKey c.1 c.2.1 c.2.2) = some w) := by
  unfold mopsStep at h
  cases hl : storeLookup st.store (mopsKey c.1 c.2.1 c.2.2) with
  | some v0 =>
    rw [hl] at h
    injection h with h2
    subst h2
    refine ⟨some v0, rfl, ?_, ?_, ?_⟩
    · intro hc; exact absurd hc (by simp)
    · intro k w hw; exact hw
    · intro w hw
      injection hw with hw2
      subst hw2
      exact hl
  | none =>
    rw [hl] at h
    cases henv : envm c.1 c.2.1 c.2.2 with
    | crash => rw [henv] at h; exact absurd h (by simp)
    | noTables =>
      rw [henv] at h
      injection h with h2
      subst h2
      refine ⟨none, rfl, fun _ => rfl, ?_, ?_⟩
      · intro k w hw; exact hw
      · intro w hw; exact absurd hw (by simp)
    | tables ts =>
      rw [henv] at h
      injection h with h2
      subst h2
      refine ⟨some (parseTables ts), rfl, ?_, ?_, ?_⟩
      · intro hc; exact absurd hc (by simp)
      · intro k w hw
        show storeLookup ((mopsKey c.1 c.2.1 c.2.2, parseTables ts) :: st.store) k
          = some w
        unfold storeLookup
        by_cases hk : mopsKey c.1 c.2.1 c.2.2 == k
        · have hk2 : mopsKey c.1 c.2.1 c.2.2 = k := by
            exact beq_iff_eq.mp hk
          rw [hk2] at hl
          rw [hl] at hw
          exact absurd hw (by simp)
        · simp only [hk]
          exact hw
      · intro w hw
        injection hw with hw2
        subst hw2
        show storeLookup ((mopsKey c.1 c.2.1 c.2.2, parseTables ts) :: st.store)
          (mopsKey c.1 c.2.1 c.2.2) = some (parseTables ts)
        unfold storeLookup
        simp

theorem mopsStep_no_crash (envm : String → Int → Int → MopsOutcome)
    (st : MopsState) (c : String × Int × Int)
    (h : envm c.1 c.2.1 c.2.2 ≠ .crash) :
    ∃ st2, mopsStep envm st c = .ok st2 := by
  unfold mopsStep
  cases hl : storeLookup st.store (mopsKey c.1 c.2.1 c.2.2) with
  | some v0 => exact ⟨_, rfl⟩
  | none =>
    cases henv : envm c.1 c.2.1 c.2.2 with
    | crash => exact absurd henv h
    | noTables => exact ⟨_, rfl⟩
    | tables ts => exact ⟨_, rfl⟩

theorem mopsRun_no_crash (envm : String → Int → Int → MopsOutcome)
    (h : ∀ sid y s, envm sid y s ≠ .crash) :
    ∀ (cs : List (String × Int × Int)) (st : MopsState),
      ∃ st2, mopsRun envm cs st = .ok st2 := by
  intro cs
  induction cs with
  | nil => intro st; exact ⟨st, rfl⟩
  | cons c cs ih =>
    intro st
    obtain ⟨st1, hstep⟩ := mopsStep_no_crash envm st c (h c.1 c.2.1 c.2.2)
    obtain ⟨st2, hrun⟩ := ih st1
    refine ⟨st2, ?_⟩
    unfold mopsRun
    rw [hstep]
    exact hrun

theorem mopsRun_char (envm : String → Int → Int → MopsOutcome) :
    ∀ (cs : List (String × Int × Int)) (st st2 : MopsState),
      mopsRun envm cs st = .ok st2 →
      ∃ entries, st2.results = st.results ++ entries ∧
        (∀ k w, storeLookup st.store k = some w →
          storeLookup st2.store k = some w) ∧
        List.Forall₂ (fun (e : String × Option (List MopsTable)) c =>
          e.1 = mopsKey c.1 c.2.1 c.2.2 ∧
          (e.2 = none → envm c.1 c.2.1 c.2.2 = .noTables) ∧
          (∀ w, e.2 = some w → storeLookup st2.store e.1 = some w))
          entries cs := by
  intro cs
  induction cs with
  | nil =>
    intro st st2 h
    injection h with h2
    subst h2
    exact ⟨[], by simp, fun k w hw => hw, List.Forall₂.nil⟩
  | cons c cs ih =>
    intro st st2 h
    unfold mopsRun at h
    cases hstep : mopsStep envm st c with
    | error n => rw [hstep] at h; exact absurd h (by simp)
    | ok st1 =>
      rw [hstep] at h
      obtain ⟨entries1, hres1, hpres1, hrel1⟩ := ih st1 st2 h
      obtain ⟨v, hres0, hnull, hpres0, hsome⟩ := mopsStep_char envm st c st1 hstep
      refine ⟨(mopsKey c.1 c.2.1 c.2.2, v) :: entries1, ?_, ?_, ?_⟩
      · rw [hres1, hres0]
        simp
      · intro k w hw
        exact hpres1 k w (hpres0 k w hw)
      · refine List.Forall₂.cons ⟨rfl, hnull, ?_⟩ hrel1
        intro w hvw
        exact hpres1 _ w (hsome w hvw)

theorem forall2_exists_right {α β : Type} {R : α → β → Prop} :
    ∀ {l1 : List α} {l2 : List β}, List.Forall₂ R l1 l2 →
      ∀ a ∈ l1, ∃ b ∈ l2, R a b := by
  intro l1 l2 h
  induction h with
  | nil => intro a ha; exact absurd ha (by simp)
  | cons hr ht ih =>
    intro a ha
    rcases List.mem_cons.mp ha with heq | ha2
    · subst heq; exact ⟨_, List.mem_cons_self _ _, hr⟩
    · obtain ⟨b, hb, hrb⟩ := ih a ha2
      exact ⟨b, List.mem_cons_of_mem _ hb, hrb⟩

theorem forall2_exists_left {α β : Type} {R : α → β → Prop} :
    ∀ {l1 : List α} {l2 : List β}, List.Forall₂ R l1 l2 →
      ∀ b ∈ l2, ∃ a ∈ l1, R a b := by
  intro l1 l2 h
  induction h with
  | nil => intro b hb; exact absurd hb (by simp)
  | cons hr ht ih =>
    intro b hb
    rcases List.mem_cons.mp hb with heq | hb2
    · subst heq; exact ⟨_, List.mem_cons_self _ _, hr⟩
    · obtain ⟨a, ha, hra⟩ := ih b hb2
      exact ⟨a, List.mem_cons_of_mem _ ha, hra⟩

theorem forall2_map_fst {α β γ : Type} {R : α → β → Prop}
    (f : α → γ) (g : β → γ)
    (himp : ∀ a b, R a b → f a = g b) :
    ∀ {l1 : List α} {l2 : List β}, List.Forall₂ R l1 l2 →
      l1.map f = l2.map g := by
  intro l1 l2 h
  induction h with
  | nil => rfl
  | cons hr ht ih => simp [himp _ _ hr, ih]

/-- C1 (amended): provided driver creation and page navigation raise for
no combination (the crash outcome, which the code does not catch), the
batch never aborts: it returns a mapping whose keys are exactly the
composite keys of the requested cross product in order, and every null
entry stems from a combination whose table wait failed (deadline
elapsed / in-try failure), without affecting any other combination. -/
theorem fetch_mops_report_total (envm : String → Int → Int → MopsOutcome)
    (sids : List String) (ys ss : List Int)
    (store : List (String × List MopsTable))
    (h : ∀ sid y s, envm sid y s ≠ .crash) :
    ∃ st, fetch_mops_report envm sids ys ss store = .ok st ∧
      st.results.map Prod.fst =
        (mopsCombos sids ys ss).map (fun c => mopsKey c.1 c.2.1 c.2.2) ∧
      ∀ e ∈ st.results, e.2 = none →
        ∃ c ∈ mopsCombos sids ys ss,
          e.1 = mopsKey c.1 c.2.1 c.2.2 ∧
          envm c.1 c.2.1 c.2.2 = .noTables := by
  obtain ⟨st, hrun⟩ := mopsRun_no_crash envm h (mopsCombos sids ys ss)
    ⟨[], store, 0⟩
  refine ⟨st, hrun, ?_, ?_⟩
  · obtain ⟨entries, hres, _, hrel⟩ :=
      mopsRun_char envm (mopsCombos sids ys ss) ⟨[], store, 0⟩ st hrun
    have hres2 : st.results = entries := by simpa using hres
    rw [hres2]
    exact forall2_map_fst Prod.fst (fun c => mopsKey c.1 c.2.1 c.2.2)
      (fun a b hab => hab.1) hrel
  · obtain ⟨entries, hres, _, hrel⟩ :=
      mopsRun_char envm (mopsCombos sids ys ss) ⟨[], store, 0⟩ st hrun
    have hres2 : st.results = entries := by simpa using hres
    intro e he hnone
    rw [hres2] at he
    obtain ⟨c, hc, hrc⟩ := forall2_exists_right hrel e he
    exact ⟨c, hc, hrc.1, hrc.2.1 hnone⟩

def mopsEnvC1x : String → Int → Int → MopsOutcome := fun _ _ _ => .crash

/-- C1 counterexample: when driver setup / page navigation raises for a
combination (a fetch error the code does not catch), the whole batch
aborts with an uncaught exception — no mapping covering the requested
keys is returned, and the failed combination gets no null entry. -/
theorem mops_crash_aborts_cex :
    fetch_mops_report mopsEnvC1x ["2330"] [2024] [1] [] = .error 0 := rfl

def mopsEnvC1w : String → Int → Int → MopsOutcome := fun _ _ _ => .noTables

/-- C1 witness: the amended statement applied to a concrete batch whose
single combination times out waiting for tables. -/
theorem fetch_mops_report_total_witness :
    (∀ sid y s, mopsEnvC1w sid y s ≠ .crash) ∧
    (∃ st, fetch_mops_report mopsEnvC1w ["2330"] [2024] [1] [] = .ok st ∧
      st.results.map Prod.fst =
        (mopsCombos ["2330"] [2024] [1]).map
          (fun c => mopsKey c.1 c.2.1 c.2.2) ∧
      ∀ e ∈ st.results, e.2 = none →
        ∃ c ∈ mopsCombos ["2330"] [2024] [1],
          e.1 = mopsKey c.1 c.2.1 c.2.2 ∧
          mopsEnvC1w c.1 c.2.1 c.2.2 = .noTables) :=
  ⟨by intro sid y s h; simp [mopsEnvC1w] at h,
   fetch_mops_report_total mopsEnvC1w ["2330"] [2024] [1] []
     (by intro sid y s h; simp [mopsEnvC1w] at h)⟩

theorem mopsRun_cached (envm : String → Int → Int → MopsOutcome) :
    ∀ (cs : List (String × Int × Int))
      (rs : List (String × Option (List MopsTable)))
      (s : List (String × List MopsTable)) (n : Nat),
      (∀ c ∈ cs, (storeLookup s (mopsKey c.1 c.2.1 c.2.2)).isSome = true) →
      mopsRun envm cs ⟨rs, s, n⟩ =
        .ok ⟨rs ++ cs.map (fun c => (mopsKey c.1 c.2.1 c.2.2,
          storeLookup s (mopsKey c.1 c.2.1 c.2.2))), s, n⟩ := by
  intro cs
  induction cs with
  | nil => intro rs s n h; simp [mopsRun]
  | cons c cs ih =>
    intro rs s n h
    have hc := h c (List.mem_cons_self c cs)
    cases hl : storeLookup s (mopsKey c.1 c.2.1 c.2.2) with
    | none => rw [hl] at hc; exact absurd hc (by simp)
    | some v =>
      have h2 : ∀ c2 ∈ cs,
          (storeLookup s (mopsKey c2.1 c2.2.1 c2.2.2)).isSome = true :=
        fun c2 hc2 => h c2 (List.mem_cons_of_mem c hc2)
      show (match mopsStep envm ⟨rs, s, n⟩ c with
        | .error n2 => Except.error n2
        | .ok st2 => mopsRun envm cs st2) = _
      unfold mopsStep
      rw [hl]
      show mopsRun envm cs ⟨rs ++ [(mopsKey c.1 c.2.1 c.2.2, some v)], s, n⟩ = _
      rw [ih _ _ _ h2]
      simp [hl]

theorem forall2_entries_eq
    (s2 : List (String × List MopsTable)) :
    ∀ (entries : List (String × Option (List MopsTable)))
      (cs : List (String × Int × Int)),
      List.Forall₂ (fun (e : String × Option (List MopsTable)) c =>
        e.1 = mopsKey c.1 c.2.1 c.2.2 ∧
        (e.2 = none → True) ∧
        (∀ w, e.2 = some w → storeLookup s2 e.1 = some w)) entries cs →
      (∀ e ∈ entries, e.2.isSome = true) →
      entries = cs.map (fun c => (mopsKey c.1 c.2.1 c.2.2,
        storeLookup s2 (mopsKey c.1 c.2.1 c.2.2))) := by
  intro entries cs h
  induction h with
  | nil => intro _; rfl
  | cons hr ht ih =>
    intro hsome
    rename_i e c l1 l2
    have he : e.2.isSome = true := hsome e (List.mem_cons_self _ _)
    obtain ⟨w, hw⟩ := Option.isSome_iff_exists.mp he
    have hlk : storeLookup s2 e.1 = some w := hr.2.2 w hw
    have hmap : l1 = l2.map (fun c => (mopsKey c.1 c.2.1 c.2.2,
        storeLookup s2 (mopsKey c.1 c.2.1 c.2.2))) :=
      ih (fun e2 he2 => hsome e2 (List.mem_cons_of_mem _ he2))
    rw [List.map_cons, ← hmap]
    have he1 : e = (mopsKey c.1 c.2.1 c.2.2,
        storeLookup s2 (mopsKey c.1 c.2.1 c.2.2)) := by
      have : e = (e.1, e.2) := rfl
      rw [this, hw, hr.1, ← hr.1, hlk]
    rw [← he1]

/-- C2 (amended): successfully fetched (or cache-hit) table sequences
are in the store when fetch_mops_report returns, but a null result is
NOT written to the store.  Consequently, if a first call returned with
no null entry, a second call with identical arguments against the
resulting store returns the identical results mapping served entirely
from the store, with zero filing-page retrievals. -/
theorem fetch_mops_report_cached_rerun
    (envm : String → Int → Int → MopsOutcome)
    (sids : List String) (ys ss : List Int)
    (store : List (String × List MopsTable)) (st1 : MopsState)
    (h1 : fetch_mops_report envm sids ys ss store = .ok st1)
    (h2 : ∀ e ∈ st1.results, e.2.isSome = true) :
    fetch_mops_report envm sids ys ss st1.store =
      .ok ⟨st1.results, st1.store, 0⟩ := by
  obtain ⟨entries, hres, hpres, hrel⟩ :=
    mopsRun_char envm (mopsCombos sids ys ss) ⟨[], store, 0⟩ st1 h1
  have hres2 : st1.results = entries := by simpa using hres
  have hsome : ∀ e ∈ entries, e.2.isSome = true := by
    intro e he; exact h2 e (by rw [hres2]; exact he)
  have hrel2 : List.Forall₂ (fun (e : String × Option (List MopsTable)) c =>
      e.1 = mopsKey c.1 c.2.1 c.2.2 ∧
      (e.2 = none → True) ∧
      (∀ w, e.2 = some w → storeLookup st1.store e.1 = some w)) entries
      (mopsCombos sids ys ss) :=
    hrel.imp (fun _ _ hab => ⟨hab.1, fun _ => trivial, hab.2.2⟩)
  have hentries := forall2_entries_eq st1.store entries
    (mopsCombos sids ys ss) hrel2 hsome
  have hcached : ∀ c ∈ mopsCombos sids ys ss,
      (storeLookup st1.store (mopsKey c.1 c.2.1 c.2.2)).isSome = true := by
    intro c hc
    obtain ⟨e, he, hrc⟩ := forall2_exists_left hrel c hc
    obtain ⟨w, hw⟩ := Option.isSome_iff_exists.mp (hsome e he)
    have := hrc.2.2 w hw
    rw [hrc.1] at this
    rw [this]
    rfl
  unfold fetch_mops_report
  rw [mopsRun_cached envm (mopsCombos sids ys ss) [] st1.store 0 hcached]
  rw [hres2, hentries]
  simp

def mopsEnvC2x : String → Int → Int → MopsOutcome := fun _ _ _ => .noTables

def stC2x : MopsState := ⟨[(mopsKey ("2330") 2024 1, none)], [], 1⟩

/-- C2 counterexample: a combination that fails (no tables before the
deadline) is recorded as null in the returned mapping but nothing is
written to the store; the second identical call therefore performs a
new filing-page retrieval (fetches = 1, not 0) instead of being served
from the store. -/
theorem mops_null_not_cached_cex :
    fetch_mops_report mopsEnvC2x ["2330"] [2024] [1] [] = .ok stC2x ∧
    stC2x.store = [] ∧
    fetch_mops_report mopsEnvC2x ["2330"] [2024] [1] stC2x.store =
      .ok stC2x ∧
    stC2x.fetches ≠ 0 :=
  ⟨rfl, rfl, rfl, by decide⟩

def mopsEnvC2w : String → Int → Int → MopsOutcome :=
  fun _ _ _ => .tables [some ⟨"pv", [[("c", "1")]]⟩]

def stC2w : MopsState :=
  ⟨[(mopsKey ("2330") 2024 1, some [⟨0, "pv", [[("c", "1")]]⟩])],
   [(mopsKey ("2330") 2024 1, [⟨0, "pv", [[("c", "1")]]⟩])], 1⟩

/-- C2 witness: the amended statement applied to a concrete batch whose
single combination fetches successfully; the second call is served from
the store with zero retrievals. -/
theorem fetch_mops_report_cached_rerun_witness :
    fetch_mops_report mopsEnvC2w ["2330"] [2024] [1] [] = .ok stC2w ∧
    fetch_mops_report mopsEnvC2w ["2330"] [2024] [1] stC2w.store =
      .ok ⟨stC2w.results, stC2w.store, 0⟩ :=
  ⟨rfl, fetch_mops_report_cached_rerun mopsEnvC2w ["2330"] [2024] [1] [] stC2w
    rfl (by decide)⟩

/-! ## analyze_financial_data (mo.py lines 52-110)

When stock_id or company is not supplied, the question is parsed; a
parse error returns the string "⚠️ 問題解析失敗：..." immediately, before
any news or filing fetch.  Otherwise keyword = f"{company}{topic}"
.strip(); a non-empty keyword triggers the news crawl; a truthy
stock_id triggers fetch_mops_report([stock_id], [2024, 2023], [1, 4])
wrapped in try/except (a batch abort is caught here and replaced by an
error dict used only in the prompt); finally one analysis model call is
made, its failure caught and returned as "❌ 分析失敗：...".  Nowhere is
stock_id checked to be a digit string.  The prompt text (pure string
work) does not affect control flow; the analysis call's outcome is the
collaborator parameter analyzeCall.
-/

/-- Collaborator outcomes for one analyze_financial_data invocation. -/
structure AnalyzeEnv where
  parseCall : Except String String
  decodeErr : String → String
  news : NewsEnv
  mops : String → Int → Int → MopsOutcome
  store : List (String × List MopsTable)
  analyzeCall : Except String String

/-- The returned string plus how many search requests, article
requests, filing-page retrievals and analysis model-call attempts were
made. -/
structure AnalyzeResult where
  out : String
  searchFetches : Nat
  articleFetches : Nat
  mopsFetches : Nat
  gptCalls : Nat
deriving DecidableEq

def analyze_financial_data (env : AnalyzeEnv)
    (question stock_id company topic : String) (pages : Int) :
    Except String AnalyzeResult :=
  match
    (if stock_id.data.isEmpty || company.data.isEmpty then
      match mo_parse_question env.parseCall env.decodeErr with
      | .errRaw msg _ => .ok (.inl msg)
      | .errOnly msg => .ok (.inl msg)
      | .parsed j =>
        match pyContains ("error") j with
        | .error e => .error e
        | .ok true =>
          match pyIndex j ("error") with
          | .error e => .error e
          | .ok ev => .ok (.inl (pyStr ev))
        | .ok false =>
          match pyGetAttr j ("stock_id") (.str ""),
                pyGetAttr j ("company") (.str ""),
                pyGetAttr j ("topic") (.str "") with
          | .ok sv, .ok cv, .ok tv => .ok (.inr (sv, cv, tv))
          | .error e, _, _ => .error e
          | _, .error e, _ => .error e
          | _, _, .error e => .error e
    else .ok (.inr (Json.str stock_id, Json.str company, Json.str topic))
    : Except String (String ⊕ (Json × Json × Json)))
  with
  | .error e => .error e
  | .ok (.inl msg) => .ok ⟨"⚠️ 問題解析失敗：" ++ msg, 0, 0, 0, 0⟩
  | .ok (.inr (sv, cv, tv)) =>
    let keyword := pyStrip (pyStr cv ++ pyStr tv)
    let cr := if keyword.data.isEmpty then (⟨[], 0, 0⟩ : CrawlResult)
      else crawl_etnews_articles env.news keyword pages
    -- try: fetch_mops_report(...) except: error dict; a batch abort is
    -- caught here, after n completed retrievals
    let mf := if pyTruthy sv then
        match fetch_mops_report env.mops [pyStr sv] [2024, 2023] [1, 4]
          env.store with
        | .ok stm => stm.fetches
        | .error n => n
      else 0
    match env.analyzeCall with
    | .ok ans =>
      .ok ⟨pyStrip ans, cr.searchFetches, cr.articleFetches, mf, 1⟩
    | .error e =>
      .ok ⟨"❌ 分析失敗：" ++ e, cr.searchFetches, cr.articleFetches, mf, 1⟩

/-- C3 (amended): the pipeline fails fast before any network call
exactly when intent parsing fails: with no stock_id/company supplied
and a model response that is not valid JSON, analyze_financial_data
returns the parse-failure string with zero search requests, zero
article requests, zero filing retrievals and zero analysis model
calls.  The digitness of a successfully parsed stock_id is never
validated (see the counterexample). -/
theorem analyze_parse_error_fail_fast (env : AnalyzeEnv)
    (question : String) (pages : Int) (r : String)
    (hcall : env.parseCall = .ok r)
    (hj : jsonParse (pyStrip r) = none) :
    analyze_financial_data env question ("") ("") ("") pages =
      .ok ⟨"⚠️ 問題解析失敗：" ++
        ("解析失敗：無法解析 JSON: " ++ env.decodeErr (pyStrip r)), 0, 0, 0, 0⟩ := by
  unfold analyze_financial_data mo_parse_question
  rw [hcall]
  simp [hj]

def analyzeEnvC3 : AnalyzeEnv :=
  ⟨.ok ("\x7b\"company\": \"X\", \"stock_id\": \"abc\", \"topic\": \"Y\"\x7d"),
   fun _ => "E",
   ⟨fun _ => some [], fun _ => .noMain⟩,
   fun _ _ _ => .noTables, [], .ok ("ans")⟩

/-- C3 counterexample: the parsed intent's stock_id "abc" contains
non-digit characters, yet the pipeline does not fail with a ParseError:
it proceeds to issue one news search request and four filing-page
retrievals (for "abc" across [2024, 2023] × [1, 4]) and returns the
analysis answer. -/
theorem analyze_no_digit_validation_cex :
    ("abc").data.all Char.isDigit = false ∧
    analyze_financial_data analyzeEnvC3 ("q") ("") ("") ("") 1 =
      .ok ⟨"ans", 1, 0, 4, 1⟩ :=
  ⟨by decide, rfl⟩

def analyzeEnvC3w : AnalyzeEnv :=
  ⟨.ok ("oops"), fun _ => "E", ⟨fun _ => none, fun _ => .noMain⟩,
   fun _ _ _ => .crash, [], .ok ("x")⟩

/-- C3 witness: the amended statement applied to a concrete non-JSON
model response. -/
theorem analyze_parse_error_fail_fast_witness :
    analyze_financial_data analyzeEnvC3w ("q") ("") ("") ("") 3 =
      .ok ⟨"⚠️ 問題解析失敗：解析失敗：無法解析 JSON: E", 0, 0, 0, 0⟩ :=
  analyze_parse_error_fail_fast analyzeEnvC3w ("q") 3 ("oops") rfl rfl
